import Mathlib

/-!
# Verification of the solsynthai collateralized-issuance program

Shallow embedding of `src/contracts/programs/solsynthai/src/lib.rs`:
the `SyntheticAsset` account record, the `initialize_synthetic_asset`,
`mint_synthetic` and `burn_synthetic` instructions, and the checked
arithmetic they use.  Machine integers (`u64`) are modelled as `Nat`
with explicit `2 ^ 64` bounds at the points where the source uses
`checked_add` / `checked_sub` / `checked_mul`.

External collaborators (the SPL token ledger moving collateral and
synthetic units, the price oracle, the clock sysvar) are out of scope of
the program's own logic: a token transfer / mint / burn CPI is modelled
as the corresponding balance update, and the oracle price and current
timestamp are parameters of the instruction.  A failed instruction rolls
back the whole transaction on the host ledger, so an instruction is a
pure function from the pre-state to `Except ErrorCode` of the post-state:
returning an error commits nothing.
-/

namespace Solsynthai

/-- The `u64` width bound: every on-chain balance and supply is `< U64MOD`. -/
def U64MOD : Nat := 2 ^ 64

/-- Checked addition `u64::checked_add`: `none` exactly when the sum leaves
the `u64` range. -/
def checked_add (a b : Nat) : Option Nat :=
  if a + b < U64MOD then some (a + b) else none

/-- Checked subtraction `u64::checked_sub`: `none` exactly when the
subtraction would go below zero. -/
def checked_sub (a b : Nat) : Option Nat :=
  if b ≤ a then some (a - b) else none

/-- Checked multiplication `u64::checked_mul`: `none` exactly when the
product leaves the `u64` range. -/
def checked_mul (a b : Nat) : Option Nat :=
  if a * b < U64MOD then some (a * b) else none

/-- The error enum of the program (`ErrorCode` in lib.rs), extended with the
spec's `PriceUnavailable` dependency error for a non-positive oracle reading
(§4.2, §6, §7 of the spec; the oracle feed itself is an external collaborator). -/
inductive ErrorCode where
  | NameTooLong
  | SymbolTooLong
  | InvalidDecimals
  | InvalidAmount
  | InvalidCollateralAmount
  | InsufficientCollateral
  | AssetPaused
  | Overflow
  | PriceUnavailable
  deriving Repr, DecidableEq

/-- The `SyntheticAsset` account record.  `Pubkey` fields are abstracted to
`Nat` identifiers; `decimals : u8`, `total_supply : u64`,
`collateral_ratio : u64` and `created_at : i64` become `Nat` / `Int`. -/
structure SyntheticAsset where
  name : String
  symbol : String
  decimals : Nat
  authority : Nat
  mint : Nat
  total_supply : Nat
  collateral_ratio : Nat
  paused : Bool
  created_at : Int
  deriving Repr, DecidableEq

/-- A freshly allocated Anchor `init` account is zero-initialized: Borsh
deserialization of zero bytes gives empty strings, zero numbers, `false`. -/
def zeroAsset : SyntheticAsset :=
  { name := ""
    symbol := ""
    decimals := 0
    authority := 0
    mint := 0
    total_supply := 0
    collateral_ratio := 0
    paused := false
    created_at := 0 }

/-- Instruction `initialize_synthetic_asset(ctx, name, symbol, decimals)`.  `acct` is the
account content before the instruction body runs (for an `init` account,
`zeroAsset`); `authority`, `mintKey` come from the accounts context and `now`
from the clock sysvar.  Mirrors lib.rs lines 11-43: the three `require!`
checks, then field assignments.  Note that the body never writes
`collateral_ratio`. -/
def initialize_synthetic_asset (acct : SyntheticAsset) (name symbol : String)
    (decimals : Nat) (authority mintKey : Nat) (now : Int) :
    Except ErrorCode SyntheticAsset :=
  if ¬ name.utf8ByteSize ≤ 32 then .error .NameTooLong
  else if ¬ symbol.utf8ByteSize ≤ 10 then .error .SymbolTooLong
  else if ¬ decimals ≤ 9 then .error .InvalidDecimals
  else .ok { acct with
    name := name
    symbol := symbol
    decimals := decimals
    authority := authority
    mint := mintKey
    created_at := now
    total_supply := 0
    paused := false }

/-- Fixed-point denominator of `collateral_ratio`, taken as basis points
(ratio 1.5 is stored as 15000), matching the spec's §4.2 / §8 examples. -/
def RATIO_SCALE : Nat := 10000

/-- Modelled from the spec: the body of `calculate_required_collateral` is
called from lib.rs (line 55) but is not present under src/.  §4.2 of the spec
defines it: `required = amount * price * ratio / RATIO_SCALE`, computed with
checked multiplication, failing `InvalidAmount` on a zero amount,
`PriceUnavailable` on a non-positive price and `Overflow` on any intermediate
overflow. -/
def calculate_required_collateral (amount price ratio : Nat) :
    Except ErrorCode Nat :=
  if amount = 0 then .error .InvalidAmount
  else if price = 0 then .error .PriceUnavailable
  else match checked_mul amount price with
  | none => .error .Overflow
  | some value => match checked_mul value ratio with
    | none => .error .Overflow
    | some scaled => .ok (scaled / RATIO_SCALE)

/-- Modelled from the spec: the body of `calculate_collateral_return` is
called from lib.rs (line 120) but is not present under src/.  §4.2: same
formula as `calculate_required_collateral`, applied at burn-time price. -/
def calculate_collateral_return (amount price ratio : Nat) :
    Except ErrorCode Nat :=
  if amount = 0 then .error .InvalidAmount
  else if price = 0 then .error .PriceUnavailable
  else match checked_mul amount price with
  | none => .error .Overflow
  | some value => match checked_mul value ratio with
    | none => .error .Overflow
    | some scaled => .ok (scaled / RATIO_SCALE)

/-- The mutable state one mint/burn request touches: the asset record plus the
three token-account balances of the accounts context (`collateral_vault`,
`user_collateral`, `user_synthetic`). -/
structure ProgramState where
  asset : SyntheticAsset
  vault_balance : Nat
  user_collateral : Nat
  user_synthetic : Nat
  deriving Repr, DecidableEq

/-- Instruction `mint_synthetic(ctx, amount, collateral_amount)` with `price` the oracle
reading `ctx.accounts.price_feed.get_price()` sampled once for the request.
Mirrors lib.rs lines 45-111: pause / amount / collateral `require!` checks,
required-collateral computation, `InsufficientCollateral` check, the two
token CPIs (collateral transfer into the vault, mint of synthetic units), and
`total_supply.checked_add(amount).ok_or(Overflow)`.  The CPIs run before the
supply update in the source, but the host rolls back the whole transaction on
any failure, so the committed effect is the post-state below on success and
nothing on error. -/
def mint_synthetic (s : ProgramState) (price amount collateral_amount : Nat) :
    Except ErrorCode ProgramState :=
  if s.asset.paused then .error .AssetPaused
  else if amount = 0 then .error .InvalidAmount
  else if collateral_amount = 0 then .error .InvalidCollateralAmount
  else match calculate_required_collateral amount price s.asset.collateral_ratio with
  | .error e => .error e
  | .ok required =>
    if collateral_amount < required then .error .InsufficientCollateral
    else match checked_add s.asset.total_supply amount with
    | none => .error .Overflow
    | some new_supply =>
      .ok { s with
        asset := { s.asset with total_supply := new_supply }
        vault_balance := s.vault_balance + collateral_amount
        user_collateral := s.user_collateral - collateral_amount
        user_synthetic := s.user_synthetic + amount }

/-- Instruction `burn_synthetic(ctx, amount)` with `price` the oracle reading sampled once
for the request.  Mirrors lib.rs lines 113-172: pause / amount checks,
collateral-return computation, the two token CPIs (burn of synthetic units,
collateral transfer back to the user), and
`total_supply.checked_sub(amount).ok_or(Overflow)`; same transaction-level
atomicity as `mint_synthetic`. -/
def burn_synthetic (s : ProgramState) (price amount : Nat) :
    Except ErrorCode ProgramState :=
  if s.asset.paused then .error .AssetPaused
  else if amount = 0 then .error .InvalidAmount
  else match calculate_collateral_return amount price s.asset.collateral_ratio with
  | .error e => .error e
  | .ok collateral_to_return =>
    match checked_sub s.asset.total_supply amount with
    | none => .error .Overflow
    | some new_supply =>
      .ok { s with
        asset := { s.asset with total_supply := new_supply }
        user_synthetic := s.user_synthetic - amount
        vault_balance := s.vault_balance - collateral_to_return
        user_collateral := s.user_collateral + collateral_to_return }

/-- Space budget `SyntheticAsset::LEN` exactly as written in lib.rs lines 245-256:
8 (discriminator) + 32 (name) + 10 (symbol) + 1 + 32 + 32 + 8 + 8 + 1 + 8. -/
def SyntheticAsset.LEN : Nat := 8 + 32 + 10 + 1 + 32 + 32 + 8 + 8 + 1 + 8

/-- Borsh-serialized byte size of a `SyntheticAsset` record (without the
8-byte Anchor discriminator): a Borsh `String` is a 4-byte little-endian
length followed by the UTF-8 bytes; `u8` and `bool` are 1 byte, `Pubkey` 32,
`u64` and `i64` 8. -/
def borsh_size (a : SyntheticAsset) : Nat :=
  (4 + a.name.utf8ByteSize) + (4 + a.symbol.utf8ByteSize) +
    1 + 32 + 32 + 8 + 8 + 1 + 8

/-- One mint or burn request against a single asset, together with the oracle
price sampled once for that request (§5: one sample per request). -/
inductive IssuanceRequest where
  | mintReq (price amount collateral_amount : Nat)
  | burnReq (price amount : Nat)
  deriving Repr, DecidableEq

/-- Committed effect of one request on the host ledger: the post-state of a
successful instruction, the unchanged pre-state when the instruction fails
(the transaction is rolled back). -/
def applyRequest (s : ProgramState) : IssuanceRequest → ProgramState
  | .mintReq p a c =>
    match mint_synthetic s p a c with
    | .ok s' => s'
    | .error _ => s
  | .burnReq p a =>
    match burn_synthetic s p a with
    | .ok s' => s'
    | .error _ => s

/-- Replay of a sequence of mint/burn requests against one asset. -/
def replay (s : ProgramState) (rs : List IssuanceRequest) : ProgramState :=
  rs.foldl applyRequest s

/-- Amount contributed by a request to the minted total: its amount when it is
a mint that succeeds from state `s`, zero otherwise. -/
def mintedOf (s : ProgramState) : IssuanceRequest → Nat
  | .mintReq p a c =>
    match mint_synthetic s p a c with
    | .ok _ => a
    | .error _ => 0
  | .burnReq _ _ => 0

/-- Amount contributed by a request to the burned total: its amount when it is
a burn that succeeds from state `s`, zero otherwise. -/
def burnedOf (s : ProgramState) : IssuanceRequest → Nat
  | .burnReq p a =>
    match burn_synthetic s p a with
    | .ok _ => a
    | .error _ => 0
  | .mintReq _ _ _ => 0

/-- Sum of the amounts of the successful mints along a replay from `s`. -/
def totalMinted : ProgramState → List IssuanceRequest → Nat
  | _, [] => 0
  | s, r :: rs => mintedOf s r + totalMinted (applyRequest s r) rs

/-- Sum of the amounts of the successful burns along a replay from `s`. -/
def totalBurned : ProgramState → List IssuanceRequest → Nat
  | _, [] => 0
  | s, r :: rs => burnedOf s r + totalBurned (applyRequest s r) rs

/-! ## Helper lemmas -/

theorem checked_add_some {a b n : Nat} (h : checked_add a b = some n) :
    n = a + b ∧ a + b < U64MOD := by
  unfold checked_add at h
  by_cases hb : a + b < U64MOD
  · rw [if_pos hb] at h
    exact ⟨(Option.some.inj h).symm, hb⟩
  · rw [if_neg hb] at h
    exact Option.noConfusion h

theorem checked_sub_some {a b n : Nat} (h : checked_sub a b = some n) :
    n = a - b ∧ b ≤ a := by
  unfold checked_sub at h
  by_cases hb : b ≤ a
  · rw [if_pos hb] at h
    exact ⟨(Option.some.inj h).symm, hb⟩
  · rw [if_neg hb] at h
    exact Option.noConfusion h

theorem checked_add_overflow {a b : Nat} (h : U64MOD ≤ a + b) :
    checked_add a b = none := by
  unfold checked_add
  rw [if_neg (by omega)]

theorem checked_sub_underflow {a b : Nat} (h : a < b) :
    checked_sub a b = none := by
  unfold checked_sub
  rw [if_neg (by omega)]

/-- Inversion of a successful mint: every guard of the source passed and the
post-state is the pre-state with the supply and the three balances updated. -/
theorem mint_ok_spec {s s' : ProgramState} {p a c : Nat}
    (h : mint_synthetic s p a c = .ok s') :
    s.asset.paused = false ∧ a ≠ 0 ∧ c ≠ 0 ∧
    (∃ required,
      calculate_required_collateral a p s.asset.collateral_ratio = .ok required ∧
      required ≤ c) ∧
    s.asset.total_supply + a < U64MOD ∧
    s' = { s with
      asset := { s.asset with total_supply := s.asset.total_supply + a }
      vault_balance := s.vault_balance + c
      user_collateral := s.user_collateral - c
      user_synthetic := s.user_synthetic + a } := by
  unfold mint_synthetic at h
  split at h
  · exact Except.noConfusion h
  rename_i hp
  split at h
  · exact Except.noConfusion h
  rename_i ha
  split at h
  · exact Except.noConfusion h
  rename_i hc
  split at h
  · exact Except.noConfusion h
  rename_i required hreq
  split at h
  · exact Except.noConfusion h
  rename_i hlt
  split at h
  · exact Except.noConfusion h
  rename_i ns hadd
  obtain ⟨hns, hfit⟩ := checked_add_some hadd
  have hp2 : s.asset.paused = false := by
    cases hb : s.asset.paused
    · rfl
    · exact absurd hb hp
  refine ⟨hp2, ha, hc, ⟨required, hreq, Nat.not_lt.mp hlt⟩, hfit, ?_⟩
  rw [(Except.ok.inj h).symm, hns]

/-- Inversion of a successful burn: every guard of the source passed and the
post-state is the pre-state with the supply and the three balances updated by
the computed collateral return. -/
theorem burn_ok_spec {s s' : ProgramState} {p a : Nat}
    (h : burn_synthetic s p a = .ok s') :
    s.asset.paused = false ∧ a ≠ 0 ∧ a ≤ s.asset.total_supply ∧
    (∃ ret,
      calculate_collateral_return a p s.asset.collateral_ratio = .ok ret ∧
      s' = { s with
        asset := { s.asset with total_supply := s.asset.total_supply - a }
        user_synthetic := s.user_synthetic - a
        vault_balance := s.vault_balance - ret
        user_collateral := s.user_collateral + ret }) := by
  unfold burn_synthetic at h
  split at h
  · exact Except.noConfusion h
  rename_i hp
  split at h
  · exact Except.noConfusion h
  rename_i ha
  split at h
  · exact Except.noConfusion h
  rename_i ret hret
  split at h
  · exact Except.noConfusion h
  rename_i ns hsub
  obtain ⟨hns, hle⟩ := checked_sub_some hsub
  have hp2 : s.asset.paused = false := by
    cases hb : s.asset.paused
    · rfl
    · exact absurd hb hp
  exact ⟨hp2, ha, hle, ret, hret, by rw [(Except.ok.inj h).symm, hns]⟩

/-- Both calculator functions are the same formula (§4.2 of the spec). -/
theorem collateral_return_eq_required (a p r : Nat) :
    calculate_collateral_return a p r = calculate_required_collateral a p r := rfl

/-- Inversion of a calculator failure: the only error outcomes are
`InvalidAmount` on a zero amount, `PriceUnavailable` on a zero price and
`Overflow` on intermediate overflow. -/
theorem required_collateral_error {a p r : Nat} {e : ErrorCode}
    (h : calculate_required_collateral a p r = .error e) :
    (a = 0 ∧ e = .InvalidAmount) ∨ (p = 0 ∧ e = .PriceUnavailable) ∨
      e = .Overflow := by
  unfold calculate_required_collateral at h
  split at h
  · exact Or.inl ⟨by assumption, (Except.error.inj h).symm⟩
  split at h
  · exact Or.inr (Or.inl ⟨by assumption, (Except.error.inj h).symm⟩)
  split at h
  · exact Or.inr (Or.inr (Except.error.inj h).symm)
  split at h
  · exact Or.inr (Or.inr (Except.error.inj h).symm)
  exact Except.noConfusion h

/-- With a nonzero amount and a positive price, the calculator either returns
a value or fails with `Overflow`; no other outcome is possible. -/
theorem required_collateral_cases (a p r : Nat) (ha : a ≠ 0) (hp : p ≠ 0) :
    (∃ req, calculate_required_collateral a p r = .ok req) ∨
    calculate_required_collateral a p r = .error .Overflow := by
  cases h : calculate_required_collateral a p r with
  | ok req => exact Or.inl ⟨req, rfl⟩
  | error e =>
    rcases required_collateral_error h with ⟨h0, _⟩ | ⟨h0, _⟩ | he
    · exact absurd h0 ha
    · exact absurd h0 hp
    · exact Or.inr (he ▸ rfl)

/-- The calculator never fails with `AssetPaused`. -/
theorem required_collateral_ne_assetPaused (a p r : Nat) :
    calculate_required_collateral a p r ≠ .error .AssetPaused := by
  intro h
  rcases required_collateral_error h with ⟨_, he⟩ | ⟨_, he⟩ | he <;>
    exact ErrorCode.noConfusion he

/-- Construction of a successful mint: when every guard of the source passes,
the instruction returns the updated state. -/
theorem mint_succeeds (s : ProgramState) (p a c required : Nat)
    (hp : s.asset.paused = false) (ha : a ≠ 0) (hc : c ≠ 0)
    (hreq : calculate_required_collateral a p s.asset.collateral_ratio = .ok required)
    (hge : required ≤ c) (hfit : s.asset.total_supply + a < U64MOD) :
    mint_synthetic s p a c = .ok { s with
      asset := { s.asset with total_supply := s.asset.total_supply + a }
      vault_balance := s.vault_balance + c
      user_collateral := s.user_collateral - c
      user_synthetic := s.user_synthetic + a } := by
  unfold mint_synthetic
  rw [hp]
  simp only [Bool.false_eq_true, if_false, if_neg ha, if_neg hc, hreq,
    if_neg (Nat.not_lt.mpr hge)]
  unfold checked_add
  rw [if_pos hfit]

/-- Construction of a successful burn: when every guard of the source passes,
the instruction returns the updated state. -/
theorem burn_succeeds (s : ProgramState) (p a ret : Nat)
    (hp : s.asset.paused = false) (ha : a ≠ 0)
    (hret : calculate_collateral_return a p s.asset.collateral_ratio = .ok ret)
    (hle : a ≤ s.asset.total_supply) :
    burn_synthetic s p a = .ok { s with
      asset := { s.asset with total_supply := s.asset.total_supply - a }
      user_synthetic := s.user_synthetic - a
      vault_balance := s.vault_balance - ret
      user_collateral := s.user_collateral + ret } := by
  unfold burn_synthetic
  rw [hp]
  simp only [Bool.false_eq_true, if_false, if_neg ha, hret]
  unfold checked_sub
  rw [if_pos hle]

/-- A mint on a paused asset fails with `AssetPaused` (the first guard). -/
theorem mint_fails_paused {s : ProgramState} (p a c : Nat)
    (hp : s.asset.paused = true) :
    mint_synthetic s p a c = .error .AssetPaused := by
  unfold mint_synthetic
  rw [if_pos hp]

/-- A burn on a paused asset fails with `AssetPaused` (the first guard). -/
theorem burn_fails_paused {s : ProgramState} (p a : Nat)
    (hp : s.asset.paused = true) :
    burn_synthetic s p a = .error .AssetPaused := by
  unfold burn_synthetic
  rw [if_pos hp]

/-- A zero-amount mint on an unpaused asset fails with `InvalidAmount`. -/
theorem mint_fails_zero_amount {s : ProgramState} (p c : Nat)
    (hp : s.asset.paused = false) :
    mint_synthetic s p 0 c = .error .InvalidAmount := by
  unfold mint_synthetic
  rw [hp]
  simp

/-- A zero-amount burn on an unpaused asset fails with `InvalidAmount`. -/
theorem burn_fails_zero_amount {s : ProgramState} (p : Nat)
    (hp : s.asset.paused = false) :
    burn_synthetic s p 0 = .error .InvalidAmount := by
  unfold burn_synthetic
  rw [hp]
  simp

/-- A mint offering less collateral than the computed requirement fails with
`InsufficientCollateral`. -/
theorem mint_fails_insufficient {s : ProgramState} {p a c required : Nat}
    (hp : s.asset.paused = false) (ha : a ≠ 0) (hc : c ≠ 0)
    (hreq : calculate_required_collateral a p s.asset.collateral_ratio = .ok required)
    (hlt : c < required) :
    mint_synthetic s p a c = .error .InsufficientCollateral := by
  unfold mint_synthetic
  rw [hp]
  simp only [Bool.false_eq_true, if_false, if_neg ha, if_neg hc, hreq,
    if_pos hlt]

/-- A mint that passes every earlier guard but would push `total_supply` past
the `u64` width fails with `Overflow` from `checked_add`. -/
theorem mint_fails_overflow {s : ProgramState} {p a c required : Nat}
    (hp : s.asset.paused = false) (ha : a ≠ 0) (hc : c ≠ 0)
    (hreq : calculate_required_collateral a p s.asset.collateral_ratio = .ok required)
    (hge : required ≤ c) (hover : U64MOD ≤ s.asset.total_supply + a) :
    mint_synthetic s p a c = .error .Overflow := by
  unfold mint_synthetic
  rw [hp]
  simp only [Bool.false_eq_true, if_false, if_neg ha, if_neg hc, hreq,
    if_neg (Nat.not_lt.mpr hge)]
  rw [checked_add_overflow hover]

/-- A burn of more than the current supply on an unpaused asset, with a
positive price, fails with `Overflow`: either directly from `checked_sub`, or
from the calculator when the return computation itself overflows. -/
theorem burn_fails_overflow {s : ProgramState} {p a : Nat}
    (hp : s.asset.paused = false) (ha : a ≠ 0) (hp0 : p ≠ 0)
    (hgt : s.asset.total_supply < a) :
    burn_synthetic s p a = .error .Overflow := by
  unfold burn_synthetic
  rw [hp]
  simp only [Bool.false_eq_true, if_false, if_neg ha]
  rw [collateral_return_eq_required]
  rcases required_collateral_cases a p s.asset.collateral_ratio ha hp0 with
    ⟨req, hreq⟩ | hov
  · rw [hreq, checked_sub_underflow hgt]
  · rw [hov]

/-- Committed effect of a successful mint request. -/
theorem applyRequest_mint_ok {s s' : ProgramState} {p a c : Nat}
    (h : mint_synthetic s p a c = .ok s') :
    applyRequest s (.mintReq p a c) = s' := by
  simp only [applyRequest, h]

/-- A failed mint request commits nothing. -/
theorem applyRequest_mint_error {s : ProgramState} {p a c : Nat}
    {e : ErrorCode} (h : mint_synthetic s p a c = .error e) :
    applyRequest s (.mintReq p a c) = s := by
  simp only [applyRequest, h]

/-- Committed effect of a successful burn request. -/
theorem applyRequest_burn_ok {s s' : ProgramState} {p a : Nat}
    (h : burn_synthetic s p a = .ok s') :
    applyRequest s (.burnReq p a) = s' := by
  simp only [applyRequest, h]

/-- A failed burn request commits nothing. -/
theorem applyRequest_burn_error {s : ProgramState} {p a : Nat}
    {e : ErrorCode} (h : burn_synthetic s p a = .error e) :
    applyRequest s (.burnReq p a) = s := by
  simp only [applyRequest, h]

theorem replay_cons (s : ProgramState) (r : IssuanceRequest)
    (rs : List IssuanceRequest) :
    replay s (r :: rs) = replay (applyRequest s r) rs := rfl

theorem totalMinted_cons (s : ProgramState) (r : IssuanceRequest)
    (rs : List IssuanceRequest) :
    totalMinted s (r :: rs) = mintedOf s r + totalMinted (applyRequest s r) rs := rfl

theorem totalBurned_cons (s : ProgramState) (r : IssuanceRequest)
    (rs : List IssuanceRequest) :
    totalBurned s (r :: rs) = burnedOf s r + totalBurned (applyRequest s r) rs := rfl

theorem mintedOf_ok {s s' : ProgramState} {p a c : Nat}
    (h : mint_synthetic s p a c = .ok s') :
    mintedOf s (.mintReq p a c) = a := by
  simp only [mintedOf, h]

theorem mintedOf_error {s : ProgramState} {p a c : Nat} {e : ErrorCode}
    (h : mint_synthetic s p a c = .error e) :
    mintedOf s (.mintReq p a c) = 0 := by
  simp only [mintedOf, h]

theorem burnedOf_ok {s s' : ProgramState} {p a : Nat}
    (h : burn_synthetic s p a = .ok s') :
    burnedOf s (.burnReq p a) = a := by
  simp only [burnedOf, h]

theorem burnedOf_error {s : ProgramState} {p a : Nat} {e : ErrorCode}
    (h : burn_synthetic s p a = .error e) :
    burnedOf s (.burnReq p a) = 0 := by
  simp only [burnedOf, h]

/-- Supply bookkeeping along a replay: starting below the `u64` width, the
final supply plus the successfully burned total equals the initial supply plus
the successfully minted total, and the supply stays below the width. -/
theorem replay_supply (rs : List IssuanceRequest) (s : ProgramState)
    (h : s.asset.total_supply < U64MOD) :
    (replay s rs).asset.total_supply + totalBurned s rs
      = s.asset.total_supply + totalMinted s rs ∧
    (replay s rs).asset.total_supply < U64MOD := by
  induction rs generalizing s with
  | nil => exact ⟨rfl, h⟩
  | cons r rs ih =>
    rw [replay_cons, totalMinted_cons, totalBurned_cons]
    cases r with
    | mintReq p a c =>
      cases hm : mint_synthetic s p a c with
      | ok s' =>
        obtain ⟨-, -, -, -, hfit, hs'⟩ := mint_ok_spec hm
        have hsup : s'.asset.total_supply = s.asset.total_supply + a := by
          rw [hs']
        rw [applyRequest_mint_ok hm, mintedOf_ok hm]
        have hb0 : burnedOf s (.mintReq p a c) = 0 := rfl
        rw [hb0]
        obtain ⟨ihe, ihb⟩ := ih s' (by omega)
        exact ⟨by omega, ihb⟩
      | error e =>
        rw [applyRequest_mint_error hm, mintedOf_error hm]
        have hb0 : burnedOf s (.mintReq p a c) = 0 := rfl
        rw [hb0]
        obtain ⟨ihe, ihb⟩ := ih s h
        exact ⟨by omega, ihb⟩
    | burnReq p a =>
      cases hm : burn_synthetic s p a with
      | ok s' =>
        obtain ⟨-, -, hle, ret, -, hs'⟩ := burn_ok_spec hm
        have hsup : s'.asset.total_supply = s.asset.total_supply - a := by
          rw [hs']
        rw [applyRequest_burn_ok hm, burnedOf_ok hm]
        have hm0 : mintedOf s (.burnReq p a) = 0 := rfl
        rw [hm0]
        obtain ⟨ihe, ihb⟩ := ih s' (by omega)
        exact ⟨by omega, ihb⟩
      | error e =>
        rw [applyRequest_burn_error hm, burnedOf_error hm]
        have hm0 : mintedOf s (.burnReq p a) = 0 := rfl
        rw [hm0]
        obtain ⟨ihe, ihb⟩ := ih s h
        exact ⟨by omega, ihb⟩

/-- One committed request never changes the `paused` flag. -/
theorem applyRequest_paused (s : ProgramState) (r : IssuanceRequest) :
    (applyRequest s r).asset.paused = s.asset.paused := by
  cases r with
  | mintReq p a c =>
    cases hm : mint_synthetic s p a c with
    | ok s' =>
      rw [applyRequest_mint_ok hm]
      obtain ⟨-, -, -, -, -, hs'⟩ := mint_ok_spec hm
      rw [hs']
    | error e => rw [applyRequest_mint_error hm]
  | burnReq p a =>
    cases hm : burn_synthetic s p a with
    | ok s' =>
      rw [applyRequest_burn_ok hm]
      obtain ⟨-, -, -, ret, -, hs'⟩ := burn_ok_spec hm
      rw [hs']
    | error e => rw [applyRequest_burn_error hm]

/-- No sequence of committed requests changes the `paused` flag. -/
theorem replay_paused (rs : List IssuanceRequest) (s : ProgramState) :
    (replay s rs).asset.paused = s.asset.paused := by
  induction rs generalizing s with
  | nil => rfl
  | cons r rs ih => rw [replay_cons, ih, applyRequest_paused]

/-- A mint on an unpaused asset never fails with `AssetPaused`. -/
theorem mint_ne_assetPaused {s : ProgramState} (p a c : Nat)
    (hp : s.asset.paused = false) :
    mint_synthetic s p a c ≠ .error .AssetPaused := by
  unfold mint_synthetic
  rw [hp]
  simp only [Bool.false_eq_true, if_false]
  split
  · simp
  split
  · simp
  split
  · rename_i e heq
    intro hc
    exact required_collateral_ne_assetPaused _ _ _ (Except.error.inj hc ▸ heq)
  split
  · simp
  split
  · simp
  · simp

/-- A burn on an unpaused asset never fails with `AssetPaused`. -/
theorem burn_ne_assetPaused {s : ProgramState} (p a : Nat)
    (hp : s.asset.paused = false) :
    burn_synthetic s p a ≠ .error .AssetPaused := by
  unfold burn_synthetic
  rw [hp]
  simp only [Bool.false_eq_true, if_false]
  split
  · simp
  split
  · rename_i e heq
    intro hc
    rw [collateral_return_eq_required] at heq
    exact required_collateral_ne_assetPaused _ _ _ (Except.error.inj hc ▸ heq)
  split
  · simp
  · simp

/-- Inversion of a successful creation: the checks passed and the record has
the initialized fields; `collateral_ratio` keeps the account's prior value. -/
theorem initialize_ok_spec {acct : SyntheticAsset} {nm sym : String}
    {d au mk : Nat} {now : Int} {a0 : SyntheticAsset}
    (h : initialize_synthetic_asset acct nm sym d au mk now = .ok a0) :
    nm.utf8ByteSize ≤ 32 ∧ sym.utf8ByteSize ≤ 10 ∧ d ≤ 9 ∧
    a0.total_supply = 0 ∧ a0.paused = false ∧
    a0.collateral_ratio = acct.collateral_ratio ∧
    a0.name = nm ∧ a0.symbol = sym ∧ a0.decimals = d := by
  unfold initialize_synthetic_asset at h
  split at h
  · exact Except.noConfusion h
  rename_i h1
  split at h
  · exact Except.noConfusion h
  rename_i h2
  split at h
  · exact Except.noConfusion h
  rename_i h3
  rw [← Except.ok.inj h]
  exact ⟨not_not.mp h1, not_not.mp h2, not_not.mp h3, rfl, rfl, rfl, rfl, rfl, rfl⟩

/-! ## Concrete states used by witnesses and counterexamples -/

/-- An asset with collateral ratio 1.5 stored as 15000 basis points (the
spec's §8 example), zero supply, unpaused. -/
def exAsset : SyntheticAsset := { zeroAsset with collateral_ratio := 15000 }

/-- Fresh program state: zero supply and vault, the user holds 300 collateral. -/
def exState : ProgramState :=
  { asset := exAsset, vault_balance := 0, user_collateral := 300,
    user_synthetic := 0 }

/-- State after minting 100 units against 300 collateral from `exState`. -/
def exStateAfterMint : ProgramState :=
  { asset := { exAsset with total_supply := 100 }, vault_balance := 300,
    user_collateral := 0, user_synthetic := 100 }

/-- A paused variant of `exState`. -/
def pausedState : ProgramState :=
  { exState with asset := { exAsset with paused := true } }

/-- An unpaused state whose supply is at the `u64` maximum. -/
def nearMaxState : ProgramState :=
  { exState with asset := { exAsset with total_supply := U64MOD - 1 } }

/-- A paused state whose supply is at the `u64` maximum. -/
def pausedMaxState : ProgramState :=
  { exState with
    asset := { exAsset with paused := true, total_supply := U64MOD - 1 } }

/-- A 32-byte name, accepted by the length check. -/
def name32 : String := "ABCDEFGHIJKLMNOPQRSTUVWXYZ012345"

/-- A 10-byte symbol, accepted by the length check. -/
def sym10 : String := "ABCDEFGHIJ"

/-! ## Claims -/

/-- Claim C1, evaluated at the failing input: the creation request with name
"SYNTH", symbol "sUSD", decimals 6 (all valid) succeeds, and the resulting
record has `total_supply = 0` and `paused = false` — but `collateral_ratio`
is 0, not positive: the instruction body never writes that field (and takes
no ratio parameter), so the zero-initialized account value remains. -/
theorem c1_ratio_never_initialized :
    (initialize_synthetic_asset zeroAsset "SYNTH" "sUSD" 6 1 2 1700000000).map
      (fun a => (a.total_supply, a.paused, a.collateral_ratio)) =
      .ok (0, false, 0) := rfl

/-- Claim C6: a mint or burn on a paused asset fails with `AssetPaused`, and
the failed request commits no state change. -/
theorem c6_paused_rejects (s : ProgramState) (p a c : Nat)
    (h : s.asset.paused = true) :
    mint_synthetic s p a c = .error .AssetPaused ∧
    burn_synthetic s p a = .error .AssetPaused ∧
    applyRequest s (.mintReq p a c) = s ∧
    applyRequest s (.burnReq p a) = s := by
  refine ⟨mint_fails_paused p a c h, burn_fails_paused p a h, ?_, ?_⟩
  · exact applyRequest_mint_error (mint_fails_paused p a c h)
  · exact applyRequest_burn_error (burn_fails_paused p a h)

theorem c6_witness :
    mint_synthetic pausedState 2 100 300 = .error .AssetPaused ∧
    burn_synthetic pausedState 2 100 = .error .AssetPaused ∧
    applyRequest pausedState (.mintReq 2 100 300) = pausedState ∧
    applyRequest pausedState (.burnReq 2 100) = pausedState :=
  c6_paused_rejects pausedState 2 100 300 rfl

/-- Claim C7 as amended: a zero-amount mint or burn on an asset that is not
paused fails with `InvalidAmount`, whatever the other parameters. -/
theorem c7_zero_amount_rejected (s : ProgramState) (p c : Nat)
    (h : s.asset.paused = false) :
    mint_synthetic s p 0 c = .error .InvalidAmount ∧
    burn_synthetic s p 0 = .error .InvalidAmount :=
  ⟨mint_fails_zero_amount p c h, burn_fails_zero_amount p h⟩

theorem c7_witness :
    mint_synthetic exState 2 0 300 = .error .InvalidAmount ∧
    burn_synthetic exState 2 0 = .error .InvalidAmount :=
  c7_zero_amount_rejected exState 2 300 rfl

/-- Claim C7, counterexample to the original statement: on a paused asset a
zero-amount mint or burn fails with `AssetPaused`, not `InvalidAmount` — the
pause check runs before the amount check, so the claim's "regardless ... of
the asset's state (including its paused flag)" is false. -/
theorem c7_counterexample :
    mint_synthetic pausedState 2 0 300 = .error .AssetPaused ∧
    mint_synthetic pausedState 2 0 300 ≠ .error .InvalidAmount ∧
    burn_synthetic pausedState 2 0 = .error .AssetPaused ∧
    burn_synthetic pausedState 2 0 ≠ .error .InvalidAmount := by
  refine ⟨rfl, ?_, rfl, ?_⟩ <;>
    exact fun h => ErrorCode.noConfusion (Except.error.inj h)

/-- Claim C9 as amended: for the valid creation input with a 32-byte name and
a 10-byte symbol, the serialized record plus the 8-byte discriminator needs
148 bytes, which exceeds the allocated `SyntheticAsset::LEN = 140`: `LEN`
budgets the raw 32 and 10 bytes of the two `String` fields but omits their
4-byte Borsh length prefixes. -/
theorem c9_space_budget_exceeded :
    (initialize_synthetic_asset zeroAsset name32 sym10 9 1 2 0).map
      (fun a => 8 + borsh_size a) = .ok 148 ∧
    SyntheticAsset.LEN = 140 ∧ SyntheticAsset.LEN < 148 := by
  exact ⟨rfl, rfl, by decide⟩

/-- Claim C9, counterexample to the original constant: `SyntheticAsset::LEN`
as written in the source sums to 140, not 132 as the claim states. -/
theorem c9_counterexample :
    SyntheticAsset.LEN = 140 ∧ SyntheticAsset.LEN ≠ 132 := by
  exact ⟨rfl, by decide⟩

/-- Claim C3 as amended: a mint that passes the pause, amount and collateral
guards but whose `total_supply + amount` leaves the `u64` range fails with
`Overflow`; a burn that passes the pause and amount guards, with a positive
price and `amount > total_supply`, fails with `Overflow`; in both cases the
failed request commits no state change. -/
theorem c3_overflow_rejected :
    (∀ (s : ProgramState) (p a c required : Nat),
      s.asset.paused = false → c ≠ 0 →
      calculate_required_collateral a p s.asset.collateral_ratio = .ok required →
      required ≤ c →
      U64MOD ≤ s.asset.total_supply + a →
      mint_synthetic s p a c = .error .Overflow ∧
        applyRequest s (.mintReq p a c) = s) ∧
    (∀ (s : ProgramState) (p a : Nat),
      s.asset.paused = false → a ≠ 0 → p ≠ 0 →
      s.asset.total_supply < a →
      burn_synthetic s p a = .error .Overflow ∧
        applyRequest s (.burnReq p a) = s) := by
  constructor
  · intro s p a c required hp hc hreq hge hover
    have ha : a ≠ 0 := by
      intro h0
      rw [h0] at hreq
      unfold calculate_required_collateral at hreq
      simp at hreq
    have hm := mint_fails_overflow hp ha hc hreq hge hover
    exact ⟨hm, applyRequest_mint_error hm⟩
  · intro s p a hp ha hp0 hgt
    have hb := burn_fails_overflow hp ha hp0 hgt
    exact ⟨hb, applyRequest_burn_error hb⟩

theorem c3_witness :
    (mint_synthetic nearMaxState 2 100 300 = .error .Overflow ∧
      applyRequest nearMaxState (.mintReq 2 100 300) = nearMaxState) ∧
    (burn_synthetic exStateAfterMint 2 200 = .error .Overflow ∧
      applyRequest exStateAfterMint (.burnReq 2 200) = exStateAfterMint) :=
  ⟨c3_overflow_rejected.1 nearMaxState 2 100 300 300 rfl (by decide) rfl
      (by decide) (by decide),
    c3_overflow_rejected.2 exStateAfterMint 2 200 rfl (by decide) (by decide)
      (by decide)⟩

/-- Claim C3, counterexample to the original statement: a mint whose
`total_supply + amount` leaves the `u64` range but whose asset is paused fails
with `AssetPaused`, not `Overflow` — the pause guard runs first. -/
theorem c3_counterexample :
    U64MOD ≤ pausedMaxState.asset.total_supply + 100 ∧
    mint_synthetic pausedMaxState 2 100 300 = .error .AssetPaused ∧
    mint_synthetic pausedMaxState 2 100 300 ≠ .error .Overflow := by
  refine ⟨by decide, rfl, ?_⟩
  exact fun h => ErrorCode.noConfusion (Except.error.inj h)

/-- Claim C4 as amended: on an unpaused asset with nonzero amount and offered
collateral, a mint offering less than the computed requirement fails with
`InsufficientCollateral` and commits nothing; a mint offering at least the
requirement, when `total_supply + amount` stays in the `u64` range, succeeds,
raising `total_supply` by the amount and the vault balance by exactly the
offered collateral. -/
theorem c4_collateral_gate :
    (∀ (s : ProgramState) (p a c required : Nat),
      s.asset.paused = false → a ≠ 0 → c ≠ 0 →
      calculate_required_collateral a p s.asset.collateral_ratio = .ok required →
      c < required →
      mint_synthetic s p a c = .error .InsufficientCollateral ∧
        applyRequest s (.mintReq p a c) = s) ∧
    (∀ (s : ProgramState) (p a c required : Nat),
      s.asset.paused = false → a ≠ 0 → c ≠ 0 →
      calculate_required_collateral a p s.asset.collateral_ratio = .ok required →
      required ≤ c →
      s.asset.total_supply + a < U64MOD →
      mint_synthetic s p a c = .ok { s with
        asset := { s.asset with total_supply := s.asset.total_supply + a }
        vault_balance := s.vault_balance + c
        user_collateral := s.user_collateral - c
        user_synthetic := s.user_synthetic + a }) := by
  constructor
  · intro s p a c required hp ha hc hreq hlt
    have hm := mint_fails_insufficient hp ha hc hreq hlt
    exact ⟨hm, applyRequest_mint_error hm⟩
  · intro s p a c required hp ha hc hreq hge hfit
    exact mint_succeeds s p a c required hp ha hc hreq hge hfit

theorem c4_witness :
    (mint_synthetic exState 2 100 299 = .error .InsufficientCollateral ∧
      applyRequest exState (.mintReq 2 100 299) = exState) ∧
    mint_synthetic exState 2 100 300 = .ok { exState with
      asset := { exState.asset with
        total_supply := exState.asset.total_supply + 100 }
      vault_balance := exState.vault_balance + 300
      user_collateral := exState.user_collateral - 300
      user_synthetic := exState.user_synthetic + 100 } :=
  ⟨c4_collateral_gate.1 exState 2 100 299 300 rfl (by decide) (by decide) rfl
      (by decide),
    c4_collateral_gate.2 exState 2 100 300 300 rfl (by decide) (by decide) rfl
      (by decide) (by decide)⟩

/-- Claim C4, counterexample to the original statement: at `u64`-maximal
supply, a mint on an unpaused asset offering exactly the computed requirement
does not succeed — it fails with `Overflow`. -/
theorem c4_counterexample :
    nearMaxState.asset.paused = false ∧
    calculate_required_collateral 100 2 nearMaxState.asset.collateral_ratio =
      .ok 300 ∧
    mint_synthetic nearMaxState 2 100 300 = .error .Overflow ∧
    (mint_synthetic nearMaxState 2 100 300).isOk = false := by
  exact ⟨rfl, rfl, rfl, rfl⟩

/-- Claim C5: minting an amount and immediately burning it at the same oracle
price returns exactly the collateral that was required at mint time: the two
calculator calls agree, the user's collateral grows by that value and the
vault shrinks back by it. -/
theorem c5_round_trip (s s1 s2 : ProgramState) (p a c : Nat)
    (hm : mint_synthetic s p a c = .ok s1)
    (hb : burn_synthetic s1 p a = .ok s2) :
    ∃ r, calculate_required_collateral a p s.asset.collateral_ratio = .ok r ∧
      calculate_collateral_return a p s1.asset.collateral_ratio = .ok r ∧
      s2.user_collateral = s1.user_collateral + r ∧
      s1.vault_balance = s2.vault_balance + r := by
  obtain ⟨hp, ha, hc, ⟨required, hreq, hge⟩, hfit, hs1⟩ := mint_ok_spec hm
  obtain ⟨hp1, ha1, hle1, ret, hret, hs2⟩ := burn_ok_spec hb
  have hratio : s1.asset.collateral_ratio = s.asset.collateral_ratio := by
    rw [hs1]
  have hret2 : calculate_required_collateral a p s.asset.collateral_ratio =
      .ok ret := by
    rw [← hratio, ← collateral_return_eq_required]
    exact hret
  have hrr : ret = required := Except.ok.inj (hret2.symm.trans hreq)
  have hv : s1.vault_balance = s.vault_balance + c := by rw [hs1]
  have h2uc : s2.user_collateral = s1.user_collateral + ret := by rw [hs2]
  have h2v : s2.vault_balance = s1.vault_balance - ret := by rw [hs2]
  exact ⟨ret, hret2, hret, h2uc, by omega⟩

theorem c5_witness :
    ∃ r, calculate_required_collateral 100 2 exState.asset.collateral_ratio =
        .ok r ∧
      calculate_collateral_return 100 2
        exStateAfterMint.asset.collateral_ratio = .ok r ∧
      exState.user_collateral = exStateAfterMint.user_collateral + r ∧
      exStateAfterMint.vault_balance = exState.vault_balance + r :=
  c5_round_trip exState exStateAfterMint exState 2 100 300 rfl rfl

/-- Claim C2: replaying any request sequence `pre ++ suf` against an asset
with zero initial supply, the final `total_supply` equals the sum of the
successful mint amounts minus the sum of the successful burn amounts, stays
below the `u64` width, and at the intermediate point after `pre` the burned
total never exceeds the minted total (no underflow) and the supply is still
below the width. -/
theorem c2_supply_accounting (s : ProgramState)
    (pre suf : List IssuanceRequest) (h0 : s.asset.total_supply = 0) :
    ((replay s (pre ++ suf)).asset.total_supply : Int)
      = (totalMinted s (pre ++ suf) : Int)
        - (totalBurned s (pre ++ suf) : Int) ∧
    (replay s (pre ++ suf)).asset.total_supply < U64MOD ∧
    totalBurned s pre ≤ totalMinted s pre ∧
    (replay s pre).asset.total_supply < U64MOD := by
  have hlt : s.asset.total_supply < U64MOD := by
    rw [h0]
    norm_num [U64MOD]
  obtain ⟨he, hb⟩ := replay_supply (pre ++ suf) s hlt
  obtain ⟨he2, hb2⟩ := replay_supply pre s hlt
  rw [h0] at he he2
  exact ⟨by omega, hb, by omega, hb2⟩

theorem c2_witness :
    ((replay exState ([.mintReq 2 100 300, .burnReq 2 40] ++ [.burnReq 2 70])).asset.total_supply : Int)
      = (totalMinted exState ([.mintReq 2 100 300, .burnReq 2 40] ++ [.burnReq 2 70]) : Int)
        - (totalBurned exState ([.mintReq 2 100 300, .burnReq 2 40] ++ [.burnReq 2 70]) : Int) ∧
    (replay exState ([.mintReq 2 100 300, .burnReq 2 40] ++ [.burnReq 2 70])).asset.total_supply < U64MOD ∧
    totalBurned exState [.mintReq 2 100 300, .burnReq 2 40]
      ≤ totalMinted exState [.mintReq 2 100 300, .burnReq 2 40] ∧
    (replay exState [.mintReq 2 100 300, .burnReq 2 40]).asset.total_supply < U64MOD :=
  c2_supply_accounting exState [.mintReq 2 100 300, .burnReq 2 40]
    [.burnReq 2 70] rfl

/-- Claim C8: a successful mint or burn changes only the `total_supply` field
of the `SyntheticAsset` record — name, symbol, decimals, authority, mint,
collateral_ratio, paused and created_at are unchanged. -/
theorem c8_only_supply_changes :
    (∀ (s s' : ProgramState) (p a c : Nat),
      mint_synthetic s p a c = .ok s' →
      s'.asset.name = s.asset.name ∧ s'.asset.symbol = s.asset.symbol ∧
      s'.asset.decimals = s.asset.decimals ∧
      s'.asset.authority = s.asset.authority ∧
      s'.asset.mint = s.asset.mint ∧
      s'.asset.collateral_ratio = s.asset.collateral_ratio ∧
      s'.asset.paused = s.asset.paused ∧
      s'.asset.created_at = s.asset.created_at) ∧
    (∀ (s s' : ProgramState) (p a : Nat),
      burn_synthetic s p a = .ok s' →
      s'.asset.name = s.asset.name ∧ s'.asset.symbol = s.asset.symbol ∧
      s'.asset.decimals = s.asset.decimals ∧
      s'.asset.authority = s.asset.authority ∧
      s'.asset.mint = s.asset.mint ∧
      s'.asset.collateral_ratio = s.asset.collateral_ratio ∧
      s'.asset.paused = s.asset.paused ∧
      s'.asset.created_at = s.asset.created_at) := by
  constructor
  · intro s s' p a c h
    obtain ⟨-, -, -, -, -, hs'⟩ := mint_ok_spec h
    rw [hs']
    exact ⟨rfl, rfl, rfl, rfl, rfl, rfl, rfl, rfl⟩
  · intro s s' p a h
    obtain ⟨-, -, -, ret, -, hs'⟩ := burn_ok_spec h
    rw [hs']
    exact ⟨rfl, rfl, rfl, rfl, rfl, rfl, rfl, rfl⟩

theorem c8_witness :
    (exStateAfterMint.asset.name = exState.asset.name ∧
      exStateAfterMint.asset.symbol = exState.asset.symbol ∧
      exStateAfterMint.asset.decimals = exState.asset.decimals ∧
      exStateAfterMint.asset.authority = exState.asset.authority ∧
      exStateAfterMint.asset.mint = exState.asset.mint ∧
      exStateAfterMint.asset.collateral_ratio = exState.asset.collateral_ratio ∧
      exStateAfterMint.asset.paused = exState.asset.paused ∧
      exStateAfterMint.asset.created_at = exState.asset.created_at) ∧
    (exState.asset.name = exStateAfterMint.asset.name ∧
      exState.asset.symbol = exStateAfterMint.asset.symbol ∧
      exState.asset.decimals = exStateAfterMint.asset.decimals ∧
      exState.asset.authority = exStateAfterMint.asset.authority ∧
      exState.asset.mint = exStateAfterMint.asset.mint ∧
      exState.asset.collateral_ratio = exStateAfterMint.asset.collateral_ratio ∧
      exState.asset.paused = exStateAfterMint.asset.paused ∧
      exState.asset.created_at = exStateAfterMint.asset.created_at) :=
  ⟨c8_only_supply_changes.1 exState exStateAfterMint 2 100 300 rfl,
    c8_only_supply_changes.2 exStateAfterMint exState 2 100 rfl⟩

/-- Claim C10: the program exposes no operation that sets `paused`: an asset
created by `initialize_synthetic_asset` and mutated only by this program's
mint/burn requests has `paused = false` in every reachable state, and a
mint or burn against such a state never fails with `AssetPaused`. -/
theorem c10_pause_unreachable (acct : SyntheticAsset) (nm sym : String)
    (d au mk : Nat) (now : Int) (a0 : SyntheticAsset) (v uc us : Nat)
    (rs : List IssuanceRequest) (p a c : Nat)
    (h : initialize_synthetic_asset acct nm sym d au mk now = .ok a0) :
    (replay ⟨a0, v, uc, us⟩ rs).asset.paused = false ∧
    mint_synthetic (replay ⟨a0, v, uc, us⟩ rs) p a c ≠ .error .AssetPaused ∧
    burn_synthetic (replay ⟨a0, v, uc, us⟩ rs) p a ≠ .error .AssetPaused := by
  obtain ⟨-, -, -, -, hpause, -, -, -, -⟩ := initialize_ok_spec h
  have hrp : (replay ⟨a0, v, uc, us⟩ rs).asset.paused = false := by
    rw [replay_paused]
    exact hpause
  exact ⟨hrp, mint_ne_assetPaused p a c hrp, burn_ne_assetPaused p a hrp⟩

/-- The record produced by a successful creation with name "SYNTH", symbol
"sUSD", decimals 6, authority 1, mint 2 at time 0 on a fresh account. -/
def c10Asset : SyntheticAsset :=
  { zeroAsset with
    name := "SYNTH"
    symbol := "sUSD"
    decimals := 6
    authority := 1
    mint := 2 }

theorem c10_witness :
    (replay ⟨c10Asset, 0, 10, 0⟩ [.mintReq 1 5 1, .burnReq 1 3]).asset.paused
        = false ∧
    mint_synthetic (replay ⟨c10Asset, 0, 10, 0⟩ [.mintReq 1 5 1, .burnReq 1 3])
        7 9 11 ≠ .error .AssetPaused ∧
    burn_synthetic (replay ⟨c10Asset, 0, 10, 0⟩ [.mintReq 1 5 1, .burnReq 1 3])
        7 9 ≠ .error .AssetPaused :=
  c10_pause_unreachable zeroAsset "SYNTH" "sUSD" 6 1 2 0 c10Asset 0 10 0
    [.mintReq 1 5 1, .burnReq 1 3] 7 9 11 rfl

end Solsynthai
